import Mathlib

/-!
Verification of `libpurecoollink/dyson_pure_state_v2.py` (libpurecool).

The file embeds the two state classes `DysonPureCoolV2State` and
`DysonEnvironmentalSensorV2State` shallowly: decoded JSON documents become
the inductive `JVal`, Python dictionary subscripting, `isinstance(_, list)`
tests, `int(...)` / `float(...)` conversions and exception propagation
become total Lean functions into `Except Err`.  `json.loads` itself is the
Python standard library, external to the repository, so the payload-level
entry points take an abstract `decode : String → Except Err JVal`
parameter; everything after decoding is translated line by line from the
source.
-/

/-- Python exceptions that the translated code can raise. -/
inductive Err where
  /-- `json.JSONDecodeError` raised by `json.loads` on a malformed payload. -/
  | jsonDecode : Err
  /-- `KeyError` raised by `d[k]` when `k` is absent from the dict `d`. -/
  | keyError (k : String) : Err
  /-- `IndexError` raised by `xs[1]` on a list with fewer than two items. -/
  | indexError : Err
  /-- `TypeError` (non-subscriptable value, or `int()` / `float()` / `+` on
  an unsupported type). -/
  | typeError : Err
  /-- `ValueError` raised by `int(s)` / `float(s)` on a non-numeric string. -/
  | valueError : Err
deriving DecidableEq

/-- A decoded JSON value, as produced by Python's `json.loads`. -/
inductive JVal where
  | jnull : JVal
  | jbool (b : Bool) : JVal
  | jnum (q : Rat) : JVal
  | jstr (s : String) : JVal
  | jarr (xs : List JVal) : JVal
  | jobj (kvs : List (String × JVal)) : JVal

/-- Association-list lookup backing Python dict subscripting on a decoded
JSON object. -/
def lookupKV : List (String × JVal) → String → Option JVal
  | [], _ => none
  | (k, v) :: rest, key => if k == key then some v else lookupKV rest key

/-- Python subscripting `v[k]` with a string key: a `KeyError` when the key
is absent from a dict, a `TypeError` when `v` is not a dict. -/
def jGetKey (v : JVal) (k : String) : Except Err JVal :=
  match v with
  | .jobj kvs =>
    match lookupKV kvs k with
    | some x => .ok x
    | none => .error (.keyError k)
  | _ => .error .typeError

/-- Python equality `v == s` against a string literal: true exactly for the
equal string (no other JSON value compares equal to a `str`). -/
def isStrEq (v : JVal) (s : String) : Bool :=
  match v with
  | .jstr t => t == s
  | _ => false

/-- `_get_field_value(state, field)` of `DysonPureCoolV2State`, identical to
the private `__get_field_value` of `DysonEnvironmentalSensorV2State`:
`state[field][1] if isinstance(state[field], list) else state[field]`. -/
def getFieldValue (state : JVal) (field : String) : Except Err JVal := do
  let v ← jGetKey state field
  match v with
  | .jarr xs =>
    match xs[1]? with
    | some x => pure x
    | none => .error .indexError
  | _ => pure v

/-- Python whitespace accepted by `int(str)` / `float(str)` stripping. -/
def isPySpace (c : Char) : Bool :=
  c == ' ' || c == '\t' || c == '\n' || c == '\r' || c == '\x0b' || c == '\x0c'

/-- Strip leading and trailing whitespace from a character list. -/
def stripSpaces (cs : List Char) : List Char :=
  ((cs.dropWhile isPySpace).reverse.dropWhile isPySpace).reverse

/-- Value of a nonempty digit string. -/
def digitsToNat (ds : List Char) : Nat :=
  ds.foldl (fun acc c => acc * 10 + (c.toNat - '0'.toNat)) 0

/-- Python `int(s)` on a string: optional sign followed by digits, with
surrounding whitespace stripped; `none` models a `ValueError`. -/
def parseIntStr (s : String) : Option Int :=
  match stripSpaces s.toList with
  | '+' :: rest =>
    if !rest.isEmpty && rest.all Char.isDigit then some (digitsToNat rest) else none
  | '-' :: rest =>
    if !rest.isEmpty && rest.all Char.isDigit then some (-(digitsToNat rest : Int)) else none
  | cs =>
    if !cs.isEmpty && cs.all Char.isDigit then some (digitsToNat cs) else none

/-- Unsigned decimal: digits, optionally followed by `.` and digits, with at
least one digit overall. -/
def parseDecMag (cs : List Char) : Option Rat :=
  let ip := cs.takeWhile Char.isDigit
  match cs.dropWhile Char.isDigit with
  | [] => if ip.isEmpty then none else some ((digitsToNat ip : Nat) : Rat)
  | '.' :: frac =>
    if (ip.isEmpty && frac.isEmpty) || !frac.all Char.isDigit then none
    else some (((digitsToNat ip : Nat) : Rat) +
      ((digitsToNat frac : Nat) : Rat) / ((10 : Rat) ^ frac.length))
  | _ => none

/-- Python `float(s)` on a string (finite decimal forms; rationals stand in
for IEEE doubles, exact on the protocol's short decimal strings). -/
def parseFloatStr (s : String) : Option Rat :=
  match stripSpaces s.toList with
  | '+' :: rest => parseDecMag rest
  | '-' :: rest => (parseDecMag rest).map (fun q => -q)
  | cs => parseDecMag cs

/-- Truncation toward zero, as Python `int(float)`. -/
def ratTrunc (q : Rat) : Int := q.num.tdiv (q.den : Int)

/-- Python `int(v)` on a decoded JSON value. -/
def pyInt (v : JVal) : Except Err Int :=
  match v with
  | .jstr s =>
    match parseIntStr s with
    | some n => .ok n
    | none => .error .valueError
  | .jnum q => .ok (ratTrunc q)
  | .jbool b => .ok (if b then 1 else 0)
  | _ => .error .typeError

/-- Python `float(v)` on a decoded JSON value. -/
def pyFloat (v : JVal) : Except Err Rat :=
  match v with
  | .jstr s =>
    match parseFloatStr s with
    | some q => .ok q
    | none => .error .valueError
  | .jnum q => .ok q
  | .jbool b => .ok (if b then 1 else 0)
  | _ => .error .typeError

/-- The conversion errors `int()` / `float()` can raise: `ValueError` on an
unparseable string, `TypeError` on a non-numeric type. -/
def Err.isConv : Err → Bool
  | .valueError => true
  | .typeError => true
  | _ => false

/-- The device operational state snapshot: `self._state` plus the fifteen
extracted fields, each exposed read-only by a property of the same name. -/
structure DysonPureCoolV2State where
  state : JVal
  fan_power : JVal
  front_direction : JVal
  auto_mode : JVal
  oscillation_status : JVal
  oscillation : JVal
  night_mode : JVal
  continuous_monitoring : JVal
  fan_state : JVal
  night_mode_speed : JVal
  speed : JVal
  carbon_filter_state : JVal
  hepa_filter_state : JVal
  sleep_timer : JVal
  oscillation_angle_low : JVal
  oscillation_angle_high : JVal

/-- `DysonPureCoolV2State.is_state_message`:
`json.loads(payload)['msg'] in ["CURRENT-STATE", "STATE-CHANGE"]`. -/
def is_state_message (decode : String → Except Err JVal) (payload : String) :
    Except Err Bool := do
  let json_message ← decode payload
  let m ← jGetKey json_message "msg"
  pure (isStrEq m "CURRENT-STATE" || isStrEq m "STATE-CHANGE")

/-- The body of `DysonPureCoolV2State.__init__` after `json.loads`:
`self._state = json_message['product-state']` followed by the fifteen
`_get_field_value(self._state, ...)` extractions, in source order. -/
def DysonPureCoolV2State.ofJson (json_message : JVal) :
    Except Err DysonPureCoolV2State := do
  let state ← jGetKey json_message "product-state"
  let fan_power ← getFieldValue state "fpwr"
  let front_direction ← getFieldValue state "fdir"
  let auto_mode ← getFieldValue state "auto"
  let oscillation_status ← getFieldValue state "oscs"
  let oscillation ← getFieldValue state "oson"
  let night_mode ← getFieldValue state "nmod"
  let continuous_monitoring ← getFieldValue state "rhtm"
  let fan_state ← getFieldValue state "fnst"
  let night_mode_speed ← getFieldValue state "nmdv"
  let speed ← getFieldValue state "fnsp"
  let carbon_filter_state ← getFieldValue state "cflr"
  let hepa_filter_state ← getFieldValue state "hflr"
  let sleep_timer ← getFieldValue state "sltm"
  let oscillation_angle_low ← getFieldValue state "osal"
  let oscillation_angle_high ← getFieldValue state "osau"
  pure { state := state, fan_power := fan_power,
         front_direction := front_direction, auto_mode := auto_mode,
         oscillation_status := oscillation_status, oscillation := oscillation,
         night_mode := night_mode,
         continuous_monitoring := continuous_monitoring,
         fan_state := fan_state, night_mode_speed := night_mode_speed,
         speed := speed, carbon_filter_state := carbon_filter_state,
         hepa_filter_state := hepa_filter_state, sleep_timer := sleep_timer,
         oscillation_angle_low := oscillation_angle_low,
         oscillation_angle_high := oscillation_angle_high }

/-- `DysonPureCoolV2State.__init__(payload)`: decode, then build. -/
def DysonPureCoolV2State.ofPayload (decode : String → Except Err JVal)
    (payload : String) : Except Err DysonPureCoolV2State := do
  let json_message ← decode payload
  DysonPureCoolV2State.ofJson json_message

/-- The environmental sensor state snapshot with its nine normalized
fields. -/
structure DysonEnvironmentalSensorV2State where
  temperature : Rat
  humidity : Int
  particulate_matter_25 : Int
  particulate_matter_10 : Int
  volatile_organic_compounds : Int
  nitrogen_dioxide : Int
  p25r : Int
  p10r : Int
  sleep_timer : Int
deriving DecidableEq

/-- `DysonEnvironmentalSensorV2State.is_environmental_state_message`:
`json_message['msg'] in ["ENVIRONMENTAL-CURRENT-SENSOR-DATA"]`. -/
def is_environmental_state_message (decode : String → Except Err JVal)
    (payload : String) : Except Err Bool := do
  let json_message ← decode payload
  let m ← jGetKey json_message "msg"
  pure (isStrEq m "ENVIRONMENTAL-CURRENT-SENSOR-DATA")

/-- Lines 164-166 of the source: `temperature = __get_field_value(data,
'tact')` then `0 if temperature == 'OFF' else float(temperature) / 10`. -/
def envTactField (data : JVal) : Except Err Rat := do
  let temperature ← getFieldValue data "tact"
  if isStrEq temperature "OFF" then pure 0
  else do
    let f ← pyFloat temperature
    pure (f / 10)

/-- The `0 if v == 'OFF' else int(v)` pattern used for `hact` and `sltm`. -/
def envOffIntField (data : JVal) (key : String) : Except Err Int := do
  let v ← getFieldValue data key
  if isStrEq v "OFF" then pure 0 else pyInt v

/-- Lines 174-177 of the source: `0 if volatile_organic_compounds == 'INIT'
else int(volatile_organic_compounds)` on field `va10`. -/
def envVocField (data : JVal) : Except Err Int := do
  let volatile_organic_compounds ← getFieldValue data "va10"
  if isStrEq volatile_organic_compounds "INIT" then pure 0
  else pyInt volatile_organic_compounds

/-- The plain `int(__get_field_value(data, key))` pattern used for `pm25`,
`pm10`, `noxl`, `p25r` and `p10r`. -/
def envIntField (data : JVal) (key : String) : Except Err Int := do
  let v ← getFieldValue data key
  pyInt v

/-- The body of `DysonEnvironmentalSensorV2State.__init__` after
`json.loads`: `data = json_message['data']` followed by the nine
extract-and-normalize steps, in source order. -/
def DysonEnvironmentalSensorV2State.ofJson (json_message : JVal) :
    Except Err DysonEnvironmentalSensorV2State := do
  let data ← jGetKey json_message "data"
  let tval ← envTactField data
  let hval ← envOffIntField data "hact"
  let pm25 ← envIntField data "pm25"
  let pm10 ← envIntField data "pm10"
  let voc ← envVocField data
  let nox ← envIntField data "noxl"
  let p25rv ← envIntField data "p25r"
  let p10rv ← envIntField data "p10r"
  let sltm ← envOffIntField data "sltm"
  pure { temperature := tval, humidity := hval,
         particulate_matter_25 := pm25, particulate_matter_10 := pm10,
         volatile_organic_compounds := voc, nitrogen_dioxide := nox,
         p25r := p25rv, p10r := p10rv, sleep_timer := sltm }

/-- `DysonEnvironmentalSensorV2State.__init__(payload)`: decode, then
build. -/
def DysonEnvironmentalSensorV2State.ofPayload
    (decode : String → Except Err JVal) (payload : String) :
    Except Err DysonEnvironmentalSensorV2State := do
  let json_message ← decode payload
  DysonEnvironmentalSensorV2State.ofJson json_message

/-- The fifteen required keys of the `product-state` mapping. -/
def pureCoolKeys : List String :=
  ["fpwr", "fdir", "auto", "oscs", "oson", "nmod", "rhtm", "fnst", "nmdv",
   "fnsp", "cflr", "hflr", "sltm", "osal", "osau"]

/-- The nine required keys of the `data` mapping. -/
def envKeys : List String :=
  ["tact", "hact", "pm25", "pm10", "va10", "noxl", "p25r", "p10r", "sltm"]

/-- Modelled from the spec: `printable_fields` lives in the `utils` module,
which is not among the sources; per the spec it renders each field as a
`name=value` pair and keeps exactly the fields whose value is non-null.
Python's `+` concatenation raises a `TypeError` on a non-string value. -/
def printable_fields : List (String × JVal) → Except Err (List String)
  | [] => .ok []
  | (n, v) :: rest =>
    match v with
    | .jnull => printable_fields rest
    | .jstr s => (printable_fields rest).map (fun l => (n ++ "=" ++ s) :: l)
    | _ => .error .typeError

/-- The field list built by `DysonPureCoolV2State.__repr__`, in source
order, with the raw stored values. -/
def pureFieldList (st : DysonPureCoolV2State) : List (String × JVal) :=
  [("fan_power", st.fan_power),
   ("front_direction", st.front_direction),
   ("auto_mode", st.auto_mode),
   ("oscillation_status", st.oscillation_status),
   ("oscillation", st.oscillation),
   ("night_mode", st.night_mode),
   ("continuous_monitoring", st.continuous_monitoring),
   ("fan_state", st.fan_state),
   ("night_mode_speed", st.night_mode_speed),
   ("speed", st.speed),
   ("carbon_filter_state", st.carbon_filter_state),
   ("hepa_filter_state", st.hepa_filter_state),
   ("sleep_timer", st.sleep_timer),
   ("oscillation_angle_low", st.oscillation_angle_low),
   ("oscillation_angle_high", st.oscillation_angle_high)]

/-- `DysonPureCoolV2State.__repr__`:
`'DysonPureCoolV2State(' + ",".join(printable_fields(fields)) + ')'`. -/
def reprPureCool (st : DysonPureCoolV2State) : Except Err String :=
  (printable_fields (pureFieldList st)).map
    (fun fs => "DysonPureCoolV2State(" ++ String.intercalate "," fs ++ ")")

/-- The field list built by `DysonEnvironmentalSensorV2State.__repr__`, in
source order; every value is wrapped in `str(...)`, modelled by the
abstract renderers `fstr` (Python `str` on the temperature number) and
`istr` (Python `str` on an `int`). -/
def envFieldList (fstr : Rat → String) (istr : Int → String)
    (st : DysonEnvironmentalSensorV2State) : List (String × JVal) :=
  [("temperature", .jstr (fstr st.temperature)),
   ("humidity", .jstr (istr st.humidity)),
   ("particulate_matter_25", .jstr (istr st.particulate_matter_25)),
   ("particulate_matter_10", .jstr (istr st.particulate_matter_10)),
   ("volatile_organic_compounds",
     .jstr (istr st.volatile_organic_compounds)),
   ("nitrogen_dioxide", .jstr (istr st.nitrogen_dioxide)),
   ("p25r", .jstr (istr st.p25r)),
   ("p10r", .jstr (istr st.p10r)),
   ("sleep_timer", .jstr (istr st.sleep_timer))]

/-- `DysonEnvironmentalSensorV2State.__repr__`. -/
def reprEnv (fstr : Rat → String) (istr : Int → String)
    (st : DysonEnvironmentalSensorV2State) : Except Err String :=
  (printable_fields (envFieldList fstr istr st)).map
    (fun fs =>
      "DysonEnvironmentalSensorV2State(" ++ String.intercalate "," fs ++ ")")

/-- A decode function returning a fixed decoded document. -/
def decodeOf (j : JVal) : String → Except Err JVal := fun _ => .ok j

/-- A decode function modelling `json.loads` on a malformed payload. -/
def badDecode : String → Except Err JVal := fun _ => .error .jsonDecode

/-- A valid environmental `data` mapping. -/
def envData2 : JVal := .jobj [("tact", .jstr "2960"), ("hact", .jstr "45"),
  ("pm25", .jstr "9"), ("pm10", .jstr "5"), ("va10", .jstr "INIT"),
  ("noxl", .jstr "12"), ("p25r", .jstr "10"), ("p10r", .jstr "8"),
  ("sltm", .jstr "OFF")]

/-- A valid environmental payload document. -/
def envJ2 : JVal := .jobj [("msg", .jstr "ENVIRONMENTAL-CURRENT-SENSOR-DATA"),
  ("data", envData2)]

/-- The state constructed from `envJ2`. -/
def envSt2 : DysonEnvironmentalSensorV2State :=
  { temperature := 2960 / 10, humidity := 45, particulate_matter_25 := 9,
    particulate_matter_10 := 5, volatile_organic_compounds := 0,
    nitrogen_dioxide := 12, p25r := 10, p10r := 8, sleep_timer := 0 }

/-- An environmental `data` mapping whose `pm25` value is not numeric. -/
def envData8 : JVal := .jobj [("tact", .jstr "2960"), ("hact", .jstr "45"),
  ("pm25", .jstr "abc"), ("pm10", .jstr "5"), ("va10", .jstr "INIT"),
  ("noxl", .jstr "12"), ("p25r", .jstr "10"), ("p10r", .jstr "8"),
  ("sltm", .jstr "OFF")]

/-- An environmental payload document with a non-numeric `pm25`. -/
def envJ8 : JVal := .jobj [("msg", .jstr "ENVIRONMENTAL-CURRENT-SENSOR-DATA"),
  ("data", envData8)]

/-- An arbitrary environmental state used to instantiate negated
conclusions. -/
def envStD : DysonEnvironmentalSensorV2State :=
  { temperature := 0, humidity := 0, particulate_matter_25 := 0,
    particulate_matter_10 := 0, volatile_organic_compounds := 0,
    nitrogen_dioxide := 0, p25r := 0, p10r := 0, sleep_timer := 0 }

/-- A `product-state` mapping missing most required keys. -/
def pureKvs6 : List (String × JVal) :=
  [("fpwr", .jarr [.jstr "OFF", .jstr "ON"])]

/-- An operational payload document whose `product-state` misses `fdir`. -/
def pureJ6 : JVal := .jobj [("product-state", .jobj pureKvs6)]

/-- An arbitrary operational state used to instantiate negated
conclusions. -/
def pureStD : DysonPureCoolV2State :=
  { state := .jnull, fan_power := .jnull, front_direction := .jnull,
    auto_mode := .jnull, oscillation_status := .jnull, oscillation := .jnull,
    night_mode := .jnull, continuous_monitoring := .jnull,
    fan_state := .jnull, night_mode_speed := .jnull, speed := .jnull,
    carbon_filter_state := .jnull, hepa_filter_state := .jnull,
    sleep_timer := .jnull, oscillation_angle_low := .jnull,
    oscillation_angle_high := .jnull }

/-- An operational state with string fields and a null `sleep_timer`. -/
def pureSt9 : DysonPureCoolV2State :=
  { state := .jnull, fan_power := .jstr "ON", front_direction := .jstr "F",
    auto_mode := .jstr "A", oscillation_status := .jstr "S",
    oscillation := .jstr "O", night_mode := .jstr "N",
    continuous_monitoring := .jstr "C", fan_state := .jstr "FS",
    night_mode_speed := .jstr "NS", speed := .jstr "SP",
    carbon_filter_state := .jstr "CF", hepa_filter_state := .jstr "HF",
    sleep_timer := .jnull, oscillation_angle_low := .jstr "L",
    oscillation_angle_high := .jstr "H" }

/-- A decoded document carrying an operational state tag. -/
def stateTagJ : JVal := .jobj [("msg", .jstr "STATE-CHANGE")]

/-- A decoded document carrying the environmental sensor tag. -/
def envTagJ : JVal :=
  .jobj [("msg", .jstr "ENVIRONMENTAL-CURRENT-SENSOR-DATA")]

/-- A mapping exercising the shape cases of the field extractor. -/
def kvs1 : List (String × JVal) :=
  [("fpwr", .jarr [.jstr "OFF", .jstr "ON"]), ("spd", .jstr "4"),
   ("cnt", .jnum 3)]

/-- A mapping with a three-element list, a one-element list and a scalar. -/
def kvs10 : List (String × JVal) :=
  [("three", .jarr [.jstr "a", .jstr "b", .jstr "c"]),
   ("one", .jarr [.jstr "x"]), ("scalar", .jstr "ON")]

/-- `pure` on `Except` is `Except.ok`. -/
theorem exPure {ε α : Type} (a : α) : (pure a : Except ε α) = Except.ok a := rfl

/-- Binding a successful `Except` computation runs the continuation. -/
theorem exBindOk {ε α β : Type} (a : α) (f : α → Except ε β) :
    ((Except.ok a : Except ε α) >>= f) = f a := rfl

/-- Binding a failed `Except` computation propagates the error. -/
theorem exBindErr {ε α β : Type} (e : ε) (f : α → Except ε β) :
    ((Except.error e : Except ε α) >>= f) = Except.error e := rfl

/-- A successful bind factors into a successful first step and a successful
continuation. -/
theorem exBindOkElim {ε α β : Type} {e : Except ε α} {f : α → Except ε β}
    {b : β} (h : (e >>= f) = .ok b) : ∃ a, e = .ok a ∧ f a = .ok b := by
  cases e with
  | error e' => rw [exBindErr] at h; exact Except.noConfusion h
  | ok a => exact ⟨a, rfl, h⟩

/-- `isStrEq` decides equality with a string literal. -/
theorem isStrEq_iff {v : JVal} {s : String} :
    isStrEq v s = true ↔ v = .jstr s := by
  cases v <;> simp [isStrEq]

/-- A failing `int()` conversion raises a `ValueError` or a `TypeError`. -/
theorem pyInt_error_isConv {v : JVal} {e : Err} (h : pyInt v = .error e) :
    e.isConv = true := by
  cases v <;> simp only [pyInt] at h
  case jstr s =>
    cases hp : parseIntStr s <;> rw [hp] at h <;>
      first
      | exact Except.noConfusion h
      | exact (Except.error.inj h) ▸ rfl
  all_goals first
    | exact Except.noConfusion h
    | exact (Except.error.inj h) ▸ rfl

/-- A failing `float()` conversion raises a `ValueError` or a `TypeError`. -/
theorem pyFloat_error_isConv {v : JVal} {e : Err} (h : pyFloat v = .error e) :
    e.isConv = true := by
  cases v <;> simp only [pyFloat] at h
  case jstr s =>
    cases hp : parseFloatStr s <;> rw [hp] at h <;>
      first
      | exact Except.noConfusion h
      | exact (Except.error.inj h) ▸ rfl
  all_goals first
    | exact Except.noConfusion h
    | exact (Except.error.inj h) ▸ rfl

/-- A successful `envTactField` comes from a successful extraction of
`tact`, giving 0 on the `"OFF"` sentinel and the parsed value divided by
ten otherwise. -/
theorem envTactField_ok {data : JVal} {tval : Rat}
    (h : envTactField data = .ok tval) :
    ∃ t, getFieldValue data "tact" = .ok t ∧
      ((t = .jstr "OFF" ∧ tval = 0) ∨
       (t ≠ .jstr "OFF" ∧ ∃ f, pyFloat t = .ok f ∧ tval = f / 10)) := by
  unfold envTactField at h
  obtain ⟨t, ht, h⟩ := exBindOkElim h
  refine ⟨t, ht, ?_⟩
  by_cases hb : isStrEq t "OFF" = true
  · rw [if_pos hb, exPure] at h
    exact Or.inl ⟨isStrEq_iff.mp hb, (Except.ok.inj h).symm⟩
  · rw [if_neg hb] at h
    obtain ⟨f, hf, h⟩ := exBindOkElim h
    rw [exPure] at h
    exact Or.inr ⟨fun hh => hb (isStrEq_iff.mpr hh), f, hf,
      (Except.ok.inj h).symm⟩

/-- A successful `envOffIntField` comes from a successful extraction,
giving 0 on the `"OFF"` sentinel and the parsed integer otherwise. -/
theorem envOffIntField_ok {data : JVal} {key : String} {n : Int}
    (h : envOffIntField data key = .ok n) :
    ∃ v, getFieldValue data key = .ok v ∧
      ((v = .jstr "OFF" ∧ n = 0) ∨ (v ≠ .jstr "OFF" ∧ pyInt v = .ok n)) := by
  unfold envOffIntField at h
  obtain ⟨v, hv, h⟩ := exBindOkElim h
  refine ⟨v, hv, ?_⟩
  by_cases hb : isStrEq v "OFF" = true
  · rw [if_pos hb, exPure] at h
    exact Or.inl ⟨isStrEq_iff.mp hb, (Except.ok.inj h).symm⟩
  · rw [if_neg hb] at h
    exact Or.inr ⟨fun hh => hb (isStrEq_iff.mpr hh), h⟩

/-- A successful `envVocField` comes from a successful extraction of
`va10`, giving 0 on the `"INIT"` sentinel and the parsed integer
otherwise. -/
theorem envVocField_ok {data : JVal} {n : Int}
    (h : envVocField data = .ok n) :
    ∃ v, getFieldValue data "va10" = .ok v ∧
      ((v = .jstr "INIT" ∧ n = 0) ∨ (v ≠ .jstr "INIT" ∧ pyInt v = .ok n)) := by
  unfold envVocField at h
  obtain ⟨v, hv, h⟩ := exBindOkElim h
  refine ⟨v, hv, ?_⟩
  by_cases hb : isStrEq v "INIT" = true
  · rw [if_pos hb, exPure] at h
    exact Or.inl ⟨isStrEq_iff.mp hb, (Except.ok.inj h).symm⟩
  · rw [if_neg hb] at h
    exact Or.inr ⟨fun hh => hb (isStrEq_iff.mpr hh), h⟩

/-- A successful `envIntField` comes from a successful extraction followed
by a successful integer conversion. -/
theorem envIntField_ok {data : JVal} {key : String} {n : Int}
    (h : envIntField data key = .ok n) :
    ∃ v, getFieldValue data key = .ok v ∧ pyInt v = .ok n := by
  unfold envIntField at h
  obtain ⟨v, hv, h⟩ := exBindOkElim h
  exact ⟨v, hv, h⟩

/-- Characterization of a successful environmental construction: the `data`
mapping was found and every one of the nine extract-and-normalize steps
succeeded, producing exactly the stored field values. -/
theorem env_ofJson_ok {j : JVal} {st : DysonEnvironmentalSensorV2State}
    (h : DysonEnvironmentalSensorV2State.ofJson j = .ok st) :
    ∃ data, jGetKey j "data" = .ok data ∧
      envTactField data = .ok st.temperature ∧
      envOffIntField data "hact" = .ok st.humidity ∧
      envIntField data "pm25" = .ok st.particulate_matter_25 ∧
      envIntField data "pm10" = .ok st.particulate_matter_10 ∧
      envVocField data = .ok st.volatile_organic_compounds ∧
      envIntField data "noxl" = .ok st.nitrogen_dioxide ∧
      envIntField data "p25r" = .ok st.p25r ∧
      envIntField data "p10r" = .ok st.p10r ∧
      envOffIntField data "sltm" = .ok st.sleep_timer := by
  unfold DysonEnvironmentalSensorV2State.ofJson at h
  obtain ⟨data, h0, h⟩ := exBindOkElim h
  obtain ⟨tval, h1, h⟩ := exBindOkElim h
  obtain ⟨hval, h2, h⟩ := exBindOkElim h
  obtain ⟨pm25, h3, h⟩ := exBindOkElim h
  obtain ⟨pm10, h4, h⟩ := exBindOkElim h
  obtain ⟨voc, h5, h⟩ := exBindOkElim h
  obtain ⟨nox, h6, h⟩ := exBindOkElim h
  obtain ⟨p25rv, h7, h⟩ := exBindOkElim h
  obtain ⟨p10rv, h8, h⟩ := exBindOkElim h
  obtain ⟨sltm, h9, h⟩ := exBindOkElim h
  rw [exPure] at h
  cases Except.ok.inj h
  exact ⟨data, h0, h1, h2, h3, h4, h5, h6, h7, h8, h9⟩

/-- Characterization of a successful operational construction: the
`product-state` mapping was found, was stored, and all fifteen field
extractions succeeded, producing exactly the stored field values. -/
theorem pure_ofJson_ok {j : JVal} {st : DysonPureCoolV2State}
    (h : DysonPureCoolV2State.ofJson j = .ok st) :
    ∃ ps, jGetKey j "product-state" = .ok ps ∧ st.state = ps ∧
      getFieldValue ps "fpwr" = .ok st.fan_power ∧
      getFieldValue ps "fdir" = .ok st.front_direction ∧
      getFieldValue ps "auto" = .ok st.auto_mode ∧
      getFieldValue ps "oscs" = .ok st.oscillation_status ∧
      getFieldValue ps "oson" = .ok st.oscillation ∧
      getFieldValue ps "nmod" = .ok st.night_mode ∧
      getFieldValue ps "rhtm" = .ok st.continuous_monitoring ∧
      getFieldValue ps "fnst" = .ok st.fan_state ∧
      getFieldValue ps "nmdv" = .ok st.night_mode_speed ∧
      getFieldValue ps "fnsp" = .ok st.speed ∧
      getFieldValue ps "cflr" = .ok st.carbon_filter_state ∧
      getFieldValue ps "hflr" = .ok st.hepa_filter_state ∧
      getFieldValue ps "sltm" = .ok st.sleep_timer ∧
      getFieldValue ps "osal" = .ok st.oscillation_angle_low ∧
      getFieldValue ps "osau" = .ok st.oscillation_angle_high := by
  unfold DysonPureCoolV2State.ofJson at h
  obtain ⟨ps, h0, h⟩ := exBindOkElim h
  obtain ⟨v1, h1, h⟩ := exBindOkElim h
  obtain ⟨v2, h2, h⟩ := exBindOkElim h
  obtain ⟨v3, h3, h⟩ := exBindOkElim h
  obtain ⟨v4, h4, h⟩ := exBindOkElim h
  obtain ⟨v5, h5, h⟩ := exBindOkElim h
  obtain ⟨v6, h6, h⟩ := exBindOkElim h
  obtain ⟨v7, h7, h⟩ := exBindOkElim h
  obtain ⟨v8, h8, h⟩ := exBindOkElim h
  obtain ⟨v9, h9, h⟩ := exBindOkElim h
  obtain ⟨v10, h10, h⟩ := exBindOkElim h
  obtain ⟨v11, h11, h⟩ := exBindOkElim h
  obtain ⟨v12, h12, h⟩ := exBindOkElim h
  obtain ⟨v13, h13, h⟩ := exBindOkElim h
  obtain ⟨v14, h14, h⟩ := exBindOkElim h
  obtain ⟨v15, h15, h⟩ := exBindOkElim h
  rw [exPure] at h
  cases Except.ok.inj h
  exact ⟨ps, h0, rfl, h1, h2, h3, h4, h5, h6, h7, h8, h9, h10, h11, h12,
    h13, h14, h15⟩

/-- Every required operational key was extracted successfully in a
successful construction. -/
theorem pure_ofJson_keys {j : JVal} {st : DysonPureCoolV2State}
    (h : DysonPureCoolV2State.ofJson j = .ok st) :
    ∃ ps, jGetKey j "product-state" = .ok ps ∧
      ∀ k ∈ pureCoolKeys, ∃ v, getFieldValue ps k = .ok v := by
  obtain ⟨ps, h0, -, h1, h2, h3, h4, h5, h6, h7, h8, h9, h10, h11, h12,
    h13, h14, h15⟩ := pure_ofJson_ok h
  refine ⟨ps, h0, ?_⟩
  intro k hk
  simp only [pureCoolKeys, List.mem_cons, List.not_mem_nil, or_false] at hk
  rcases hk with rfl | rfl | rfl | rfl | rfl | rfl | rfl | rfl | rfl | rfl |
    rfl | rfl | rfl | rfl | rfl
  exacts [⟨_, h1⟩, ⟨_, h2⟩, ⟨_, h3⟩, ⟨_, h4⟩, ⟨_, h5⟩, ⟨_, h6⟩, ⟨_, h7⟩,
    ⟨_, h8⟩, ⟨_, h9⟩, ⟨_, h10⟩, ⟨_, h11⟩, ⟨_, h12⟩, ⟨_, h13⟩, ⟨_, h14⟩,
    ⟨_, h15⟩]

/-- Every required environmental key was extracted successfully in a
successful construction. -/
theorem env_ofJson_keys {j : JVal} {st : DysonEnvironmentalSensorV2State}
    (h : DysonEnvironmentalSensorV2State.ofJson j = .ok st) :
    ∃ data, jGetKey j "data" = .ok data ∧
      ∀ k ∈ envKeys, ∃ v, getFieldValue data k = .ok v := by
  obtain ⟨data, h0, h1, h2, h3, h4, h5, h6, h7, h8, h9⟩ := env_ofJson_ok h
  refine ⟨data, h0, ?_⟩
  intro k hk
  simp only [envKeys, List.mem_cons, List.not_mem_nil, or_false] at hk
  rcases hk with rfl | rfl | rfl | rfl | rfl | rfl | rfl | rfl | rfl
  · obtain ⟨t, ht, -⟩ := envTactField_ok h1; exact ⟨t, ht⟩
  · obtain ⟨v, hv, -⟩ := envOffIntField_ok h2; exact ⟨v, hv⟩
  · obtain ⟨v, hv, -⟩ := envIntField_ok h3; exact ⟨v, hv⟩
  · obtain ⟨v, hv, -⟩ := envIntField_ok h4; exact ⟨v, hv⟩
  · obtain ⟨v, hv, -⟩ := envVocField_ok h5; exact ⟨v, hv⟩
  · obtain ⟨v, hv, -⟩ := envIntField_ok h6; exact ⟨v, hv⟩
  · obtain ⟨v, hv, -⟩ := envIntField_ok h7; exact ⟨v, hv⟩
  · obtain ⟨v, hv, -⟩ := envIntField_ok h8; exact ⟨v, hv⟩
  · obtain ⟨v, hv, -⟩ := envOffIntField_ok h9; exact ⟨v, hv⟩

/-- On a list whose values are all strings or null, `printable_fields`
succeeds and returns a `name=value` entry for exactly the non-null
fields, in order. -/
theorem printable_fields_strOrNull {fields : List (String × JVal)}
    (h : ∀ f ∈ fields, f.2 = .jnull ∨ ∃ s, f.2 = .jstr s) :
    printable_fields fields = .ok (fields.filterMap (fun f =>
      match f.2 with
      | .jstr s => some (f.1 ++ "=" ++ s)
      | _ => none)) := by
  induction fields with
  | nil => rfl
  | cons f rest ih =>
    obtain ⟨n, v⟩ := f
    have hrest : ∀ g ∈ rest, g.2 = .jnull ∨ ∃ s, g.2 = .jstr s :=
      fun g hg => h g (List.mem_cons_of_mem _ hg)
    rcases h (n, v) (List.mem_cons_self _ _) with hnull | ⟨s, hs⟩
    · simp only at hnull
      subst hnull
      simp only [printable_fields, List.filterMap_cons]
      exact ih hrest
    · simp only at hs
      subst hs
      simp only [printable_fields, List.filterMap_cons]
      rw [ih hrest]
      rfl

/-- The `hact` / `sltm` normalization result in terms of the extracted
value: 0 on the `"OFF"` sentinel, the parsed integer otherwise. -/
theorem envOffIntField_spec {data : JVal} {key : String} {m : Int}
    (h : envOffIntField data key = .ok m) {v : JVal}
    (hv : getFieldValue data key = .ok v) :
    (v = .jstr "OFF" → m = 0) ∧ (∀ n, pyInt v = .ok n → m = n) := by
  obtain ⟨v', hv', hcase⟩ := envOffIntField_ok h
  rw [hv] at hv'
  cases Except.ok.inj hv'
  constructor
  · intro hOFF
    rcases hcase with ⟨-, h0⟩ | ⟨hne, -⟩
    · exact h0
    · exact absurd hOFF hne
  · intro n hn
    rcases hcase with ⟨hOFF, -⟩ | ⟨-, hint⟩
    · subst hOFF
      rw [show pyInt (JVal.jstr "OFF") = Except.error Err.valueError from
        rfl] at hn
      exact Except.noConfusion hn
    · rw [hint] at hn
      exact Except.ok.inj hn

/-- The `va10` normalization result in terms of the extracted value: 0 on
the `"INIT"` sentinel, the parsed integer otherwise. -/
theorem envVocField_spec {data : JVal} {m : Int}
    (h : envVocField data = .ok m) {v : JVal}
    (hv : getFieldValue data "va10" = .ok v) :
    (v = .jstr "INIT" → m = 0) ∧ (∀ n, pyInt v = .ok n → m = n) := by
  obtain ⟨v', hv', hcase⟩ := envVocField_ok h
  rw [hv] at hv'
  cases Except.ok.inj hv'
  constructor
  · intro hINIT
    rcases hcase with ⟨-, h0⟩ | ⟨hne, -⟩
    · exact h0
    · exact absurd hINIT hne
  · intro n hn
    rcases hcase with ⟨hINIT, -⟩ | ⟨-, hint⟩
    · subst hINIT
      rw [show pyInt (JVal.jstr "INIT") = Except.error Err.valueError from
        rfl] at hn
      exact Except.noConfusion hn
    · rw [hint] at hn
      exact Except.ok.inj hn

/-- The plain integer-field normalization result in terms of the extracted
value. -/
theorem envIntField_spec {data : JVal} {key : String} {m : Int}
    (h : envIntField data key = .ok m) {v : JVal} {n : Int}
    (hv : getFieldValue data key = .ok v) (hn : pyInt v = .ok n) :
    m = n := by
  obtain ⟨v', hv', hint⟩ := envIntField_ok h
  rw [hv] at hv'
  cases Except.ok.inj hv'
  rw [hint] at hn
  exact Except.ok.inj hn

/-- C1: For every decoded mapping and every key present in it, the field
extractor (the `_get_field_value` helper of both state classes) returns
the element at position 1 of the value when that value is an ordered
two-element sequence, and returns the value unchanged when it is a scalar
(string or number); looking up a key absent from the mapping fails with a
missing-key error. -/
theorem claim_C1 (kvs : List (String × JVal)) (k : String) :
    (∀ a b, lookupKV kvs k = some (.jarr [a, b]) →
      getFieldValue (.jobj kvs) k = .ok b) ∧
    (∀ s, lookupKV kvs k = some (.jstr s) →
      getFieldValue (.jobj kvs) k = .ok (.jstr s)) ∧
    (∀ q, lookupKV kvs k = some (.jnum q) →
      getFieldValue (.jobj kvs) k = .ok (.jnum q)) ∧
    (lookupKV kvs k = none →
      getFieldValue (.jobj kvs) k = .error (.keyError k)) := by
  refine ⟨?_, ?_, ?_, ?_⟩
  · intro a b hl
    simp only [getFieldValue, jGetKey, hl]
    rfl
  · intro s hl
    simp only [getFieldValue, jGetKey, hl]
    rfl
  · intro q hl
    simp only [getFieldValue, jGetKey, hl]
    rfl
  · intro hl
    simp only [getFieldValue, jGetKey, hl]
    rfl

/-- Witness for C1 on a concrete mapping: a two-element list yields its
second element, a string and a number pass through, and an absent key
raises `KeyError`. -/
theorem claim_C1_witness :
    getFieldValue (.jobj kvs1) "fpwr" = .ok (.jstr "ON") ∧
    getFieldValue (.jobj kvs1) "spd" = .ok (.jstr "4") ∧
    getFieldValue (.jobj kvs1) "cnt" = .ok (.jnum 3) ∧
    getFieldValue (.jobj kvs1) "nope" = .error (.keyError "nope") :=
  ⟨(claim_C1 kvs1 "fpwr").1 (.jstr "OFF") (.jstr "ON") rfl,
   (claim_C1 kvs1 "spd").2.1 "4" rfl,
   (claim_C1 kvs1 "cnt").2.2.1 3 rfl,
   (claim_C1 kvs1 "nope").2.2.2 rfl⟩

/-- C10: The field extractor's shape test is list-ness: any list of length
at least 2 yields the element at index 1 (regardless of total length),
any non-list value — including multi-character strings — is returned
unchanged and never indexed, and a list of length 0 or 1 makes extraction
fail with an index error. -/
theorem claim_C10 (kvs : List (String × JVal)) (k : String) :
    (∀ xs v, lookupKV kvs k = some (.jarr xs) → xs[1]? = some v →
      getFieldValue (.jobj kvs) k = .ok v) ∧
    (∀ xs, lookupKV kvs k = some (.jarr xs) → xs.length ≤ 1 →
      getFieldValue (.jobj kvs) k = .error .indexError) ∧
    (∀ v, lookupKV kvs k = some v → (∀ xs, v ≠ .jarr xs) →
      getFieldValue (.jobj kvs) k = .ok v) := by
  refine ⟨?_, ?_, ?_⟩
  · intro xs v hl hi
    simp only [getFieldValue, jGetKey, hl, exBindOk, hi]
    rfl
  · intro xs hl hlen
    have hi : xs[1]? = none := List.getElem?_eq_none hlen
    simp only [getFieldValue, jGetKey, hl, exBindOk, hi]
  · intro v hl hv
    cases v with
    | jarr xs => exact absurd rfl (hv xs)
    | jnull => simp only [getFieldValue, jGetKey, hl]; rfl
    | jbool b => simp only [getFieldValue, jGetKey, hl]; rfl
    | jnum q => simp only [getFieldValue, jGetKey, hl]; rfl
    | jstr s => simp only [getFieldValue, jGetKey, hl]; rfl
    | jobj o => simp only [getFieldValue, jGetKey, hl]; rfl

/-- Witness for C10: a three-element list yields its middle element, a
one-element list raises `IndexError`, and a multi-character string passes
through unindexed. -/
theorem claim_C10_witness :
    getFieldValue (.jobj kvs10) "three" = .ok (.jstr "b") ∧
    getFieldValue (.jobj kvs10) "one" = .error .indexError ∧
    getFieldValue (.jobj kvs10) "scalar" = .ok (.jstr "ON") :=
  ⟨(claim_C10 kvs10 "three").1 [.jstr "a", .jstr "b", .jstr "c"]
      (.jstr "b") rfl rfl,
   (claim_C10 kvs10 "one").2.1 [.jstr "x"] rfl (by decide),
   (claim_C10 kvs10 "scalar").2.2 (.jstr "ON") rfl
      (fun xs hh => JVal.noConfusion hh)⟩

/-- C4: For every payload that decodes to a mapping containing the key
`msg`, `is_state_message` returns true iff the value at `msg` equals
`"CURRENT-STATE"` or `"STATE-CHANGE"`, and false for every other tag
value. -/
theorem claim_C4 (decode : String → Except Err JVal) (payload : String)
    (j m : JVal) (hd : decode payload = .ok j)
    (hm : jGetKey j "msg" = .ok m) :
    (is_state_message decode payload = .ok true ↔
      (m = .jstr "CURRENT-STATE" ∨ m = .jstr "STATE-CHANGE")) ∧
    (m ≠ .jstr "CURRENT-STATE" → m ≠ .jstr "STATE-CHANGE" →
      is_state_message decode payload = .ok false) := by
  have hrun : is_state_message decode payload =
      .ok (isStrEq m "CURRENT-STATE" || isStrEq m "STATE-CHANGE") := by
    unfold is_state_message
    rw [hd, exBindOk, hm, exBindOk, exPure]
  constructor
  · rw [hrun]
    simp only [Except.ok.injEq, Bool.or_eq_true, isStrEq_iff]
  · intro hne1 hne2
    have h1 : isStrEq m "CURRENT-STATE" = false := by
      cases hb : isStrEq m "CURRENT-STATE" with
      | false => rfl
      | true => exact absurd (isStrEq_iff.mp hb) hne1
    have h2 : isStrEq m "STATE-CHANGE" = false := by
      cases hb : isStrEq m "STATE-CHANGE" with
      | false => rfl
      | true => exact absurd (isStrEq_iff.mp hb) hne2
    rw [hrun, h1, h2]
    rfl

/-- Witness for C4: a `STATE-CHANGE` tag classifies as a state message, the
environmental-sensor tag does not. -/
theorem claim_C4_witness :
    is_state_message (decodeOf stateTagJ) "p" = .ok true ∧
    is_state_message (decodeOf envTagJ) "p" = .ok false :=
  ⟨(claim_C4 (decodeOf stateTagJ) "p" stateTagJ (.jstr "STATE-CHANGE")
      rfl rfl).1.mpr (Or.inr rfl),
   (claim_C4 (decodeOf envTagJ) "p" envTagJ
      (.jstr "ENVIRONMENTAL-CURRENT-SENSOR-DATA") rfl rfl).2
      (fun hh => by injection hh with hs; exact absurd hs (by decide))
      (fun hh => by injection hh with hs; exact absurd hs (by decide))⟩

/-- C5: For every payload that decodes to a mapping containing the key
`msg`, `is_environmental_state_message` returns true iff the value at
`msg` equals `"ENVIRONMENTAL-CURRENT-SENSOR-DATA"`. -/
theorem claim_C5 (decode : String → Except Err JVal) (payload : String)
    (j m : JVal) (hd : decode payload = .ok j)
    (hm : jGetKey j "msg" = .ok m) :
    (is_environmental_state_message decode payload = .ok true ↔
      m = .jstr "ENVIRONMENTAL-CURRENT-SENSOR-DATA") ∧
    (m ≠ .jstr "ENVIRONMENTAL-CURRENT-SENSOR-DATA" →
      is_environmental_state_message decode payload = .ok false) := by
  have hrun : is_environmental_state_message decode payload =
      .ok (isStrEq m "ENVIRONMENTAL-CURRENT-SENSOR-DATA") := by
    unfold is_environmental_state_message
    rw [hd, exBindOk, hm, exBindOk, exPure]
  constructor
  · rw [hrun]
    simp only [Except.ok.injEq, isStrEq_iff]
  · intro hne
    have h1 : isStrEq m "ENVIRONMENTAL-CURRENT-SENSOR-DATA" = false := by
      cases hb : isStrEq m "ENVIRONMENTAL-CURRENT-SENSOR-DATA" with
      | false => rfl
      | true => exact absurd (isStrEq_iff.mp hb) hne
    rw [hrun, h1]

/-- Witness for C5: the environmental-sensor tag classifies as an
environmental message, the `STATE-CHANGE` tag does not. -/
theorem claim_C5_witness :
    is_environmental_state_message (decodeOf envTagJ) "p" = .ok true ∧
    is_environmental_state_message (decodeOf stateTagJ) "p" = .ok false :=
  ⟨(claim_C5 (decodeOf envTagJ) "p" envTagJ
      (.jstr "ENVIRONMENTAL-CURRENT-SENSOR-DATA") rfl rfl).1.mpr rfl,
   (claim_C5 (decodeOf stateTagJ) "p" stateTagJ (.jstr "STATE-CHANGE")
      rfl rfl).2
      (fun hh => by injection hh with hs; exact absurd hs (by decide))⟩

/-- C7: For every payload string on which decoding fails, both classifier
functions and both constructors fail with that decode error; none of them
returns false, an empty object, or any other default value. -/
theorem claim_C7 (decode : String → Except Err JVal) (payload : String)
    (e : Err) (he : decode payload = .error e) :
    is_state_message decode payload = .error e ∧
    is_environmental_state_message decode payload = .error e ∧
    DysonPureCoolV2State.ofPayload decode payload = .error e ∧
    DysonEnvironmentalSensorV2State.ofPayload decode payload = .error e := by
  refine ⟨?_, ?_, ?_, ?_⟩
  · unfold is_state_message
    rw [he, exBindErr]
  · unfold is_environmental_state_message
    rw [he, exBindErr]
  · unfold DysonPureCoolV2State.ofPayload
    rw [he, exBindErr]
  · unfold DysonEnvironmentalSensorV2State.ofPayload
    rw [he, exBindErr]

/-- Witness for C7: a decode failure propagates out of all four entry
points unchanged. -/
theorem claim_C7_witness :
    is_state_message badDecode "not json" = .error .jsonDecode ∧
    is_environmental_state_message badDecode "not json" =
      .error .jsonDecode ∧
    DysonPureCoolV2State.ofPayload badDecode "not json" =
      .error .jsonDecode ∧
    DysonEnvironmentalSensorV2State.ofPayload badDecode "not json" =
      .error .jsonDecode :=
  claim_C7 badDecode "not json" .jsonDecode rfl

/-- C2: For every valid environmental payload, the constructed state has
temperature 0 when the extracted `tact` value is the sentinel `"OFF"`,
and otherwise the numeric value of `tact` divided by 10. -/
theorem claim_C2 (j : JVal) (st : DysonEnvironmentalSensorV2State)
    (data t : JVal)
    (hok : DysonEnvironmentalSensorV2State.ofJson j = .ok st)
    (hdata : jGetKey j "data" = .ok data)
    (ht : getFieldValue data "tact" = .ok t) :
    (t = .jstr "OFF" → st.temperature = 0) ∧
    (t ≠ .jstr "OFF" → ∀ f, pyFloat t = .ok f → st.temperature = f / 10) := by
  obtain ⟨data', hdata', htf, -⟩ := env_ofJson_ok hok
  rw [hdata] at hdata'
  cases Except.ok.inj hdata'
  obtain ⟨t', ht', hcase⟩ := envTactField_ok htf
  rw [ht] at ht'
  cases Except.ok.inj ht'
  constructor
  · intro hOFF
    rcases hcase with ⟨-, h0⟩ | ⟨hne, -⟩
    · exact h0
    · exact absurd hOFF hne
  · intro hne f hf
    rcases hcase with ⟨hOFF, -⟩ | ⟨-, f', hf', hval⟩
    · exact absurd hOFF hne
    · rw [hf] at hf'
      cases Except.ok.inj hf'
      exact hval

/-- Witness for C2: `"tact": "2960"` yields temperature 296. -/
theorem claim_C2_witness :
    DysonEnvironmentalSensorV2State.ofJson envJ2 = .ok envSt2 ∧
    envSt2.temperature = 296 := by
  refine ⟨rfl, ?_⟩
  have h := (claim_C2 envJ2 envSt2 envData2 (.jstr "2960") rfl rfl rfl).2
    (fun hh => by injection hh with hs; exact absurd hs (by decide))
    2960 rfl
  exact h.trans (by norm_num)

/-- C3: For every valid environmental payload, humidity and sleep_timer
are 0 when the extracted value is `"OFF"` and otherwise its integer
value; volatile_organic_compounds is 0 when the extracted value is
`"INIT"` and otherwise its integer value; particulate_matter_25,
particulate_matter_10, nitrogen_dioxide, p25r and p10r are the integer
values of the extracted `pm25`, `pm10`, `noxl`, `p25r` and `p10r` fields
with no sentinel handling. -/
theorem claim_C3 (j : JVal) (st : DysonEnvironmentalSensorV2State)
    (data : JVal)
    (hok : DysonEnvironmentalSensorV2State.ofJson j = .ok st)
    (hdata : jGetKey j "data" = .ok data) :
    (∀ v, getFieldValue data "hact" = .ok v →
      (v = .jstr "OFF" → st.humidity = 0) ∧
      (∀ n, pyInt v = .ok n → st.humidity = n)) ∧
    (∀ v, getFieldValue data "sltm" = .ok v →
      (v = .jstr "OFF" → st.sleep_timer = 0) ∧
      (∀ n, pyInt v = .ok n → st.sleep_timer = n)) ∧
    (∀ v, getFieldValue data "va10" = .ok v →
      (v = .jstr "INIT" → st.volatile_organic_compounds = 0) ∧
      (∀ n, pyInt v = .ok n → st.volatile_organic_compounds = n)) ∧
    (∀ v n, getFieldValue data "pm25" = .ok v → pyInt v = .ok n →
      st.particulate_matter_25 = n) ∧
    (∀ v n, getFieldValue data "pm10" = .ok v → pyInt v = .ok n →
      st.particulate_matter_10 = n) ∧
    (∀ v n, getFieldValue data "noxl" = .ok v → pyInt v = .ok n →
      st.nitrogen_dioxide = n) ∧
    (∀ v n, getFieldValue data "p25r" = .ok v → pyInt v = .ok n →
      st.p25r = n) ∧
    (∀ v n, getFieldValue data "p10r" = .ok v → pyInt v = .ok n →
      st.p10r = n) := by
  obtain ⟨data', hdata', -, h2, h3, h4, h5, h6, h7, h8, h9⟩ :=
    env_ofJson_ok hok
  rw [hdata] at hdata'
  cases Except.ok.inj hdata'
  refine ⟨?_, ?_, ?_, ?_, ?_, ?_, ?_, ?_⟩
  · intro v hv
    exact envOffIntField_spec h2 hv
  · intro v hv
    exact envOffIntField_spec h9 hv
  · intro v hv
    exact envVocField_spec h5 hv
  · intro v n hv hn
    exact envIntField_spec h3 hv hn
  · intro v n hv hn
    exact envIntField_spec h4 hv hn
  · intro v n hv hn
    exact envIntField_spec h6 hv hn
  · intro v n hv hn
    exact envIntField_spec h7 hv hn
  · intro v n hv hn
    exact envIntField_spec h8 hv hn

/-- Witness for C3 on a concrete payload: `"hact": "45"` yields humidity
45, `"va10": "INIT"` yields 0, `"sltm": "OFF"` yields 0, and
`"pm25": "9"` yields 9. -/
theorem claim_C3_witness :
    envSt2.humidity = 45 ∧ envSt2.volatile_organic_compounds = 0 ∧
    envSt2.sleep_timer = 0 ∧ envSt2.particulate_matter_25 = 9 := by
  have h := claim_C3 envJ2 envSt2 envData2 rfl rfl
  exact ⟨(h.1 (.jstr "45") rfl).2 45 rfl,
    (h.2.2.1 (.jstr "INIT") rfl).1 rfl,
    (h.2.1 (.jstr "OFF") rfl).1 rfl,
    h.2.2.2.1 (.jstr "9") 9 rfl rfl⟩

/-- C6: Construction of either state object is all-or-nothing: when the
nested mapping itself is missing its error propagates, and when the
nested mapping omits a required key, extraction of that key fails with a
missing-key error and the constructor produces no state object at all. -/
theorem claim_C6 (j : JVal) :
    (∀ e, jGetKey j "product-state" = .error e →
      DysonPureCoolV2State.ofJson j = .error e) ∧
    (∀ e, jGetKey j "data" = .error e →
      DysonEnvironmentalSensorV2State.ofJson j = .error e) ∧
    (∀ kvs k, jGetKey j "product-state" = .ok (.jobj kvs) →
      k ∈ pureCoolKeys → lookupKV kvs k = none →
      getFieldValue (.jobj kvs) k = .error (.keyError k) ∧
      ∀ st, DysonPureCoolV2State.ofJson j ≠ .ok st) ∧
    (∀ kvs k, jGetKey j "data" = .ok (.jobj kvs) →
      k ∈ envKeys → lookupKV kvs k = none →
      getFieldValue (.jobj kvs) k = .error (.keyError k) ∧
      ∀ st, DysonEnvironmentalSensorV2State.ofJson j ≠ .ok st) := by
  refine ⟨?_, ?_, ?_, ?_⟩
  · intro e he
    unfold DysonPureCoolV2State.ofJson
    rw [he, exBindErr]
  · intro e he
    unfold DysonEnvironmentalSensorV2State.ofJson
    rw [he, exBindErr]
  · intro kvs k hps hk hlk
    have hgf : getFieldValue (.jobj kvs) k = .error (.keyError k) := by
      simp only [getFieldValue, jGetKey, hlk]
      rfl
    refine ⟨hgf, ?_⟩
    intro st hok
    obtain ⟨ps', hps', hall⟩ := pure_ofJson_keys hok
    rw [hps] at hps'
    cases Except.ok.inj hps'
    obtain ⟨v, hv⟩ := hall k hk
    rw [hgf] at hv
    exact Except.noConfusion hv
  · intro kvs k hd hk hlk
    have hgf : getFieldValue (.jobj kvs) k = .error (.keyError k) := by
      simp only [getFieldValue, jGetKey, hlk]
      rfl
    refine ⟨hgf, ?_⟩
    intro st hok
    obtain ⟨data', hd', hall⟩ := env_ofJson_keys hok
    rw [hd] at hd'
    cases Except.ok.inj hd'
    obtain ⟨v, hv⟩ := hall k hk
    rw [hgf] at hv
    exact Except.noConfusion hv

/-- Witness for C6: a `product-state` mapping missing `fdir` makes the
extraction fail with `KeyError('fdir')` and the constructor produce no
object. -/
theorem claim_C6_witness :
    getFieldValue (.jobj pureKvs6) "fdir" = .error (.keyError "fdir") ∧
    DysonPureCoolV2State.ofJson pureJ6 ≠ .ok pureStD := by
  have h := (claim_C6 pureJ6).2.2.1 pureKvs6 "fdir" rfl (by decide) rfl
  exact ⟨h.1, h.2 pureStD⟩

/-- C8: For every environmental payload in which an expected-numeric field
has an extracted value that is neither numeric nor that field's sentinel,
the conversion fails with a type-conversion error and the constructor
produces no state object. -/
theorem claim_C8 (j : JVal) (data v : JVal) (e : Err)
    (hdata : jGetKey j "data" = .ok data) :
    (getFieldValue data "tact" = .ok v → v ≠ .jstr "OFF" →
      pyFloat v = .error e → e.isConv = true ∧
      ∀ st, DysonEnvironmentalSensorV2State.ofJson j ≠ .ok st) ∧
    (∀ k, k ∈ (["hact", "sltm"] : List String) →
      getFieldValue data k = .ok v → v ≠ .jstr "OFF" →
      pyInt v = .error e → e.isConv = true ∧
      ∀ st, DysonEnvironmentalSensorV2State.ofJson j ≠ .ok st) ∧
    (getFieldValue data "va10" = .ok v → v ≠ .jstr "INIT" →
      pyInt v = .error e → e.isConv = true ∧
      ∀ st, DysonEnvironmentalSensorV2State.ofJson j ≠ .ok st) ∧
    (∀ k, k ∈ (["pm25", "pm10", "noxl", "p25r", "p10r"] : List String) →
      getFieldValue data k = .ok v →
      pyInt v = .error e → e.isConv = true ∧
      ∀ st, DysonEnvironmentalSensorV2State.ofJson j ≠ .ok st) := by
  have hdata' : ∀ {st : DysonEnvironmentalSensorV2State},
      DysonEnvironmentalSensorV2State.ofJson j = .ok st →
      envTactField data = .ok st.temperature ∧
      envOffIntField data "hact" = .ok st.humidity ∧
      envIntField data "pm25" = .ok st.particulate_matter_25 ∧
      envIntField data "pm10" = .ok st.particulate_matter_10 ∧
      envVocField data = .ok st.volatile_organic_compounds ∧
      envIntField data "noxl" = .ok st.nitrogen_dioxide ∧
      envIntField data "p25r" = .ok st.p25r ∧
      envIntField data "p10r" = .ok st.p10r ∧
      envOffIntField data "sltm" = .ok st.sleep_timer := by
    intro st hok
    obtain ⟨d', hd', hrest⟩ := env_ofJson_ok hok
    rw [hdata] at hd'
    cases Except.ok.inj hd'
    exact hrest
  refine ⟨?_, ?_, ?_, ?_⟩
  · intro hv hne hf
    refine ⟨pyFloat_error_isConv hf, ?_⟩
    intro st hok
    obtain ⟨htf, -⟩ := hdata' hok
    obtain ⟨t', ht', hcase⟩ := envTactField_ok htf
    rw [hv] at ht'
    cases Except.ok.inj ht'
    rcases hcase with ⟨hOFF, -⟩ | ⟨-, f, hf', -⟩
    · exact hne hOFF
    · rw [hf] at hf'
      exact Except.noConfusion hf'
  · intro k hk hv hne hf
    refine ⟨pyInt_error_isConv hf, ?_⟩
    intro st hok
    obtain ⟨-, hhact, -, -, -, -, -, -, hsltm⟩ := hdata' hok
    have hfield : ∃ m : Int, envOffIntField data k = .ok m := by
      simp only [List.mem_cons, List.not_mem_nil, or_false] at hk
      rcases hk with rfl | rfl
      · exact ⟨_, hhact⟩
      · exact ⟨_, hsltm⟩
    obtain ⟨m, hm⟩ := hfield
    obtain ⟨v', hv', hcase⟩ := envOffIntField_ok hm
    rw [hv] at hv'
    cases Except.ok.inj hv'
    rcases hcase with ⟨hOFF, -⟩ | ⟨-, hint⟩
    · exact hne hOFF
    · rw [hf] at hint
      exact Except.noConfusion hint
  · intro hv hne hf
    refine ⟨pyInt_error_isConv hf, ?_⟩
    intro st hok
    obtain ⟨-, -, -, -, hvoc, -⟩ := hdata' hok
    obtain ⟨v', hv', hcase⟩ := envVocField_ok hvoc
    rw [hv] at hv'
    cases Except.ok.inj hv'
    rcases hcase with ⟨hINIT, -⟩ | ⟨-, hint⟩
    · exact hne hINIT
    · rw [hf] at hint
      exact Except.noConfusion hint
  · intro k hk hv hf
    refine ⟨pyInt_error_isConv hf, ?_⟩
    intro st hok
    obtain ⟨-, -, hpm25, hpm10, -, hnox, hp25, hp10, -⟩ := hdata' hok
    have hfield : ∃ m : Int, envIntField data k = .ok m := by
      simp only [List.mem_cons, List.not_mem_nil, or_false] at hk
      rcases hk with rfl | rfl | rfl | rfl | rfl
      · exact ⟨_, hpm25⟩
      · exact ⟨_, hpm10⟩
      · exact ⟨_, hnox⟩
      · exact ⟨_, hp25⟩
      · exact ⟨_, hp10⟩
    obtain ⟨m, hm⟩ := hfield
    obtain ⟨v', hv', hint⟩ := envIntField_ok hm
    rw [hv] at hv'
    cases Except.ok.inj hv'
    rw [hf] at hint
    exact Except.noConfusion hint

/-- Witness for C8: `"pm25": "abc"` raises a `ValueError` (a conversion
error) and the environmental constructor produces no object. -/
theorem claim_C8_witness :
    Err.valueError.isConv = true ∧
    DysonEnvironmentalSensorV2State.ofJson envJ8 ≠ .ok envStD := by
  have h := (claim_C8 envJ8 envData8 (.jstr "abc") .valueError
    rfl).2.2.2 "pm25" (by decide) rfl rfl
  exact ⟨h.1, h.2 envStD⟩

/-- C9: For both state types, the diagnostic string representation lists
the fields as `name=value` pairs joined by commas and includes exactly
the fields whose stored value is non-null; the environmental type (whose
values are all rendered strings, hence non-null) follows the same
convention. -/
theorem claim_C9 (stP : DysonPureCoolV2State) (fstr : Rat → String)
    (istr : Int → String) (stE : DysonEnvironmentalSensorV2State) :
    ((∀ f ∈ pureFieldList stP, f.2 = .jnull ∨ ∃ s, f.2 = .jstr s) →
      reprPureCool stP = .ok ("DysonPureCoolV2State(" ++
        String.intercalate "," ((pureFieldList stP).filterMap (fun f =>
          match f.2 with
          | .jstr s => some (f.1 ++ "=" ++ s)
          | _ => none)) ++ ")")) ∧
    reprEnv fstr istr stE = .ok ("DysonEnvironmentalSensorV2State(" ++
      String.intercalate ","
        ["temperature=" ++ fstr stE.temperature,
         "humidity=" ++ istr stE.humidity,
         "particulate_matter_25=" ++ istr stE.particulate_matter_25,
         "particulate_matter_10=" ++ istr stE.particulate_matter_10,
         "volatile_organic_compounds=" ++
           istr stE.volatile_organic_compounds,
         "nitrogen_dioxide=" ++ istr stE.nitrogen_dioxide,
         "p25r=" ++ istr stE.p25r,
         "p10r=" ++ istr stE.p10r,
         "sleep_timer=" ++ istr stE.sleep_timer] ++ ")") := by
  constructor
  · intro h
    unfold reprPureCool
    rw [printable_fields_strOrNull h]
    rfl
  · unfold reprEnv
    have hall : ∀ f ∈ envFieldList fstr istr stE,
        f.2 = .jnull ∨ ∃ s, f.2 = .jstr s := by
      intro f hf
      simp only [envFieldList, List.mem_cons, List.not_mem_nil,
        or_false] at hf
      rcases hf with rfl | rfl | rfl | rfl | rfl | rfl | rfl | rfl | rfl <;>
        exact Or.inr ⟨_, rfl⟩
    rw [printable_fields_strOrNull hall]
    rfl

set_option maxRecDepth 4000 in
/-- Witness for C9: a state with string fields and a null `sleep_timer`
renders all fields but `sleep_timer`; an environmental state renders all
nine fields. -/
theorem claim_C9_witness :
    reprPureCool pureSt9 = .ok
      ("DysonPureCoolV2State(fan_power=ON,front_direction=F,auto_mode=A," ++
       "oscillation_status=S,oscillation=O,night_mode=N," ++
       "continuous_monitoring=C,fan_state=FS,night_mode_speed=NS," ++
       "speed=SP,carbon_filter_state=CF,hepa_filter_state=HF," ++
       "oscillation_angle_low=L,oscillation_angle_high=H)") ∧
    reprEnv (fun _ => "t") (fun _ => "n") envStD = .ok
      ("DysonEnvironmentalSensorV2State(temperature=t,humidity=n," ++
       "particulate_matter_25=n,particulate_matter_10=n," ++
       "volatile_organic_compounds=n,nitrogen_dioxide=n,p25r=n,p10r=n," ++
       "sleep_timer=n)") := by
  have h := claim_C9 pureSt9 (fun _ => "t") (fun _ => "n") envStD
  constructor
  · refine (h.1 ?_).trans (by rfl)
    intro f hf
    simp only [pureFieldList, List.mem_cons, List.not_mem_nil,
      or_false] at hf
    rcases hf with rfl | rfl | rfl | rfl | rfl | rfl | rfl | rfl | rfl |
      rfl | rfl | rfl | rfl | rfl | rfl <;>
      first
      | exact Or.inl rfl
      | exact Or.inr ⟨_, rfl⟩
  · exact h.2.trans (by rfl)
